import Mathlib

/-!
Verification of the Neura design-system core: theme data model
(src/theme/colors.ts, src/theme index), the theme provider
(src/providers/ThemeProvider.tsx), the style cache / factory
(makeStyles: createStyles, useVariant), the text-color resolution of
ThemedText (getTextColor) and the press gating of ThemedButton.

The TypeScript source is shallowly embedded: the module-level mutable
style cache becomes an explicit state argument threaded through
`createStylesApply`; exceptions (`throw new Error`) become `Except.error`;
JavaScript union types (`ColorScheme | 'auto'`, `'light' | 'dark' | null`)
become inductive types and `Option`.
-/

/-- `ColorScheme` from src/theme/colors.ts: `'light' | 'dark'`. -/
inductive ColorScheme where
  | light
  | dark
deriving DecidableEq, Repr, Fintype

/-- The provider's selection type `ColorScheme | 'auto'`
(the `userColorScheme` state of ThemeProvider). -/
inductive SchemeSelection where
  | explicit (c : ColorScheme)
  | auto
deriving DecidableEq, Repr, Fintype

/-- A `{main, light, dark, contrast}` color group from src/theme/colors.ts. -/
structure ColorVariant where
  main : String
  light : String
  dark : String
  contrast : String
deriving DecidableEq, Repr

/-- The `background` color group: `{default, paper, elevated}`. -/
structure BackgroundColors where
  default : String
  paper : String
  elevated : String
deriving DecidableEq, Repr

/-- The `surface` color group: `{default, variant, disabled}`. -/
structure SurfaceColors where
  default : String
  variant : String
  disabled : String
deriving DecidableEq, Repr

/-- The `text` color group: `{primary, secondary, disabled, inverse}`. -/
structure TextColors where
  primary : String
  secondary : String
  disabled : String
  inverse : String
deriving DecidableEq, Repr

/-- The `border` color group: `{default, focused, disabled}`. -/
structure BorderColors where
  default : String
  focused : String
  disabled : String
deriving DecidableEq, Repr

/-- `ColorTokens` interface from src/theme/colors.ts. -/
structure ColorTokens where
  primary : ColorVariant
  secondary : ColorVariant
  background : BackgroundColors
  surface : SurfaceColors
  text : TextColors
  border : BorderColors
  success : ColorVariant
  error : ColorVariant
  warning : ColorVariant
  info : ColorVariant
  golden : ColorVariant
deriving DecidableEq, Repr

namespace palette

def primary50 : String := "#fffdf7"

def primary100 : String := "#fffaeb"

def primary200 : String := "#fff3c4"

def primary300 : String := "#ffe588"

def primary400 : String := "#ffd23f"

def primary500 : String := "#ffbe0b"

def primary600 : String := "#f59e0b"

def primary700 : String := "#d97706"

def secondary300 : String := "#d4d4d4"

def secondary400 : String := "#a3a3a3"

def secondary600 : String := "#525252"

def secondary700 : String := "#404040"

def neutral200 : String := "#e5e5e5"

def neutral300 : String := "#d4d4d4"

def neutral400 : String := "#a3a3a3"

def neutral500 : String := "#737373"

def neutral600 : String := "#525252"

def neutral700 : String := "#404040"

def success50 : String := "#f0fdf4"

def success100 : String := "#dcfce7"

def success500 : String := "#22c55e"

def success700 : String := "#15803d"

def error50 : String := "#fef2f2"

def error100 : String := "#fee2e2"

def error500 : String := "#ef4444"

def error700 : String := "#b91c1c"

def warning50 : String := "#fff7ed"

def warning100 : String := "#ffedd5"

def warning500 : String := "#f97316"

def warning700 : String := "#c2410c"

def info50 : String := "#eff6ff"

def info100 : String := "#dbeafe"

def info500 : String := "#3b82f6"

def info700 : String := "#1d4ed8"

def white : String := "#ffffff"

def black : String := "#000000"

end palette

/-- `lightColors` from src/theme/colors.ts. -/
def lightColors : ColorTokens where
  primary := ⟨palette.primary600, palette.primary400, palette.primary700, palette.black⟩
  secondary := ⟨palette.secondary600, palette.secondary400, palette.secondary700, palette.white⟩
  background := ⟨"#f7f9fc", palette.white, palette.white⟩
  surface := ⟨palette.white, "#f3f4f6", palette.neutral200⟩
  text := ⟨"#2d3748", palette.neutral600, palette.neutral400, palette.white⟩
  border := ⟨palette.neutral200, palette.primary600, palette.neutral300⟩
  success := ⟨palette.success500, palette.success100, palette.success700, palette.white⟩
  error := ⟨palette.error500, palette.error100, palette.error700, palette.white⟩
  warning := ⟨palette.warning500, palette.warning100, palette.warning700, palette.black⟩
  info := ⟨palette.info500, palette.info100, palette.info700, palette.white⟩
  golden := ⟨palette.primary600, palette.primary200, palette.primary700, palette.black⟩

/-- `darkColors` from src/theme/colors.ts. -/
def darkColors : ColorTokens where
  primary := ⟨palette.primary500, palette.primary400, palette.primary600, palette.black⟩
  secondary := ⟨palette.secondary400, palette.secondary300, palette.secondary600, palette.black⟩
  background := ⟨"#1a1d2e", "#252947", "#2d3253"⟩
  surface := ⟨"#252947", "#2d3253", palette.neutral600⟩
  text := ⟨"#f7fafc", "#cbd5e0", palette.neutral500, palette.black⟩
  border := ⟨"#4a5568", palette.primary500, palette.neutral700⟩
  success := ⟨palette.success500, palette.success50, palette.success700, palette.black⟩
  error := ⟨palette.error500, palette.error50, palette.error700, palette.white⟩
  warning := ⟨palette.warning500, palette.warning50, palette.warning700, palette.black⟩
  info := ⟨palette.info500, palette.info50, palette.info700, palette.white⟩
  golden := ⟨palette.primary500, palette.primary50, palette.primary700, palette.black⟩

/-- `Theme` from the theme index file. The theme aggregates `colors` with the
typography, spacing, radius and size tables; those tables are single static
constants shared verbatim by `lightTheme` and `darkTheme` (only `colors`
differs between the two instances), and none of the functions under
verification reads them, so the embedding carries the `colors` component. -/
structure Theme where
  colors : ColorTokens
deriving DecidableEq, Repr

/-- `lightTheme` from the theme index file. -/
def lightTheme : Theme := ⟨lightColors⟩

/-- `darkTheme` from the theme index file. -/
def darkTheme : Theme := ⟨darkColors⟩

/-- `themes = {light: lightTheme, dark: darkTheme}` from the theme index file. -/
def themes : ColorScheme → Theme
  | ColorScheme.light => lightTheme
  | ColorScheme.dark => darkTheme

/-- The provider's resolution of the active scheme
(ThemeProvider.tsx lines 40-42):
`userColorScheme === 'auto' ? (systemColorScheme === 'dark' ? 'dark' : 'light')
: userColorScheme`. The host's `useColorScheme()` value
(`'light' | 'dark' | null`) is embedded as `Option ColorScheme`. -/
def activeColorScheme (userColorScheme : SchemeSelection)
    (systemColorScheme : Option ColorScheme) : ColorScheme :=
  match userColorScheme with
  | SchemeSelection.auto =>
      if systemColorScheme = some ColorScheme.dark then ColorScheme.dark
      else ColorScheme.light
  | SchemeSelection.explicit c => c

/-- `currentTheme = forcedTheme || themes[activeColorScheme]`
(ThemeProvider.tsx line 45); a theme object is always truthy. -/
def currentTheme (forcedTheme : Option Theme) (active : ColorScheme) : Theme :=
  match forcedTheme with
  | some t => t
  | none => themes active

/-- `setColorScheme` handler (ThemeProvider.tsx lines 48-50): replaces the
`userColorScheme` state with the given scheme. -/
def setColorScheme (_userColorScheme : SchemeSelection)
    (scheme : SchemeSelection) : SchemeSelection :=
  scheme

/-- `toggleColorScheme` handler (ThemeProvider.tsx lines 53-61): on `auto`,
set the opposite of the system preference; otherwise flip the (explicit)
active scheme. The result is the new `userColorScheme` state. -/
def toggleColorScheme (userColorScheme : SchemeSelection)
    (systemColorScheme : Option ColorScheme) : SchemeSelection :=
  if userColorScheme = SchemeSelection.auto then
    SchemeSelection.explicit
      (if systemColorScheme = some ColorScheme.dark then ColorScheme.light
       else ColorScheme.dark)
  else
    SchemeSelection.explicit
      (if activeColorScheme userColorScheme systemColorScheme = ColorScheme.light
       then ColorScheme.dark
       else ColorScheme.light)

/-- `ThemeContextType` (ThemeProvider.tsx lines 11-18). The two callback
fields are embedded as the state transitions they perform on the provider's
`userColorScheme` state. -/
structure ThemeContextType where
  theme : Theme
  colorScheme : ColorScheme
  setScheme : SchemeSelection → SchemeSelection
  toggleScheme : Unit → SchemeSelection
  isDark : Bool
  isLight : Bool

/-- The `contextValue` built by ThemeProvider (lines 64-71). -/
def contextValue (userColorScheme : SchemeSelection)
    (systemColorScheme : Option ColorScheme) (forcedTheme : Option Theme) :
    ThemeContextType :=
  let active := activeColorScheme userColorScheme systemColorScheme
  { theme := currentTheme forcedTheme active
    colorScheme := active
    setScheme := fun scheme => setColorScheme userColorScheme scheme
    toggleScheme := fun _ => toggleColorScheme userColorScheme systemColorScheme
    isDark := active = ColorScheme.dark
    isLight := active = ColorScheme.light }

/-- `useTheme` (ThemeProvider.tsx lines 81-89): reads the context; outside a
provider the context is the `createContext(undefined)` default, embedded as
`none`, and the hook throws. -/
def useTheme (ctx : Option ThemeContextType) : Except String ThemeContextType :=
  match ctx with
  | none => Except.error "useTheme must be used within a ThemeProvider"
  | some c => Except.ok c

namespace StyleSheet

/-- React Native's `StyleSheet.create` registers a named-styles object and
returns it unchanged; in the embedding it is the identity. -/
def create {σ : Type} (styles : σ) : σ := styles

end StyleSheet

/-- The module-level `styleCache : Map<string, any>` of makeStyles, embedded
as an explicit association list threaded through the calls (the source runs
single-threaded, so each call sees the cache left by the previous one). -/
def StyleCache (σ : Type) : Type := List (String × σ)

/-- The cache key of `createStyles` (makeStyles line 51):
`` `${theme.colors.primary.main}-${theme.colors.background.default}` ``. -/
def cacheKey (theme : Theme) : String :=
  theme.colors.primary.main ++ "-" ++ theme.colors.background.default

/-- One call of the accessor returned by `createStyles styleCreator`
(makeStyles lines 49-65) with the given cache state: if the key is cached,
return the cached styles and leave the cache alone; otherwise build the
styles with `StyleSheet.create (styleCreator theme)`, cache them under the
key and return them. Returns the styles together with the new cache. -/
def createStylesApply {σ : Type} (styleCreator : Theme → σ)
    (cache : StyleCache σ) (theme : Theme) : σ × StyleCache σ :=
  match List.lookup (cacheKey theme) cache with
  | some styles => (styles, cache)
  | none =>
      let styles := StyleSheet.create (styleCreator theme)
      (styles, (cacheKey theme, styles) :: cache)

/-- `clearStyleCache` (makeStyles lines 210-212): empties the cache. -/
def clearStyleCache {σ : Type} (_cache : StyleCache σ) : StyleCache σ := []

/-- The property names a plain JavaScript object literal inherits from
`Object.prototype`. A bracket read that misses every own key still finds
these, and each is bound to a truthy value: a built-in function
(`toString`, `hasOwnProperty`, ...), the `Object` constructor, or — for the
`__proto__` accessor — the prototype object itself. -/
def objectPrototypeKeys : List String :=
  ["constructor", "hasOwnProperty", "isPrototypeOf", "propertyIsEnumerable",
   "toLocaleString", "toString", "valueOf", "__proto__",
   "__defineGetter__", "__defineSetter__", "__lookupGetter__",
   "__lookupSetter__"]

/-- The result of a JavaScript property read `obj[key]` on a plain object
literal whose own entries form the given association list: an own value, a
truthy member inherited from Object.prototype, or `undefined`. -/
inductive JsProperty (σ : Type) where
  | own (value : σ)
  | inherited (name : String)
  | undef
deriving DecidableEq, Repr

/-- `obj[key]` on a plain object literal: own keys shadow the prototype; a
miss falls through to the inherited Object.prototype members before
evaluating to `undefined`. -/
def jsIndex {σ : Type} (obj : List (String × σ)) (key : String) :
    JsProperty σ :=
  match List.lookup key obj with
  | some value => JsProperty.own value
  | none =>
      if key ∈ objectPrototypeKeys then JsProperty.inherited key
      else JsProperty.undef

/-- The outcome of one `useVariant` call: a style value produced by an own
creator, the thrown `Variant ... not found` configuration error, or the
invocation of a truthy member inherited from Object.prototype that slipped
past the `!variantCreator` guard in place of a creator (whatever that
invocation then does, it is not the configuration error). -/
inductive UseVariantOutcome (σ : Type) where
  | styles (value : σ)
  | notFoundError (msg : String)
  | inheritedInvoked (name : String)
deriving DecidableEq, Repr

/-- `useVariant` (makeStyles lines 180-193):
`const variantCreator = variants[variant]` is a JavaScript bracket read, so
an absent name can still hit an inherited Object.prototype member; the
guard `if (!variantCreator) throw` fires only when the read is falsy
(`undefined`), and otherwise the found value is invoked on the theme. -/
def useVariant {σ : Type} (variants : List (String × (Theme → σ)))
    (variant : String) (theme : Theme) : UseVariantOutcome σ :=
  match jsIndex variants variant with
  | JsProperty.own variantCreator =>
      UseVariantOutcome.styles (variantCreator theme)
  | JsProperty.inherited name => UseVariantOutcome.inheritedInvoked name
  | JsProperty.undef =>
      UseVariantOutcome.notFoundError
        ("Variant \"" ++ variant ++ "\" not found in variants object")

/-- The local `colorMap` record of `getTextColor`
(ThemedText/index.tsx lines 64-69). -/
def textColorMap (theme : Theme) : List (String × String) :=
  [("primary", theme.colors.text.primary),
   ("secondary", theme.colors.text.secondary),
   ("disabled", theme.colors.text.disabled),
   ("inverse", theme.colors.text.inverse)]

/-- A value `colorMap[color] || color` can evaluate to: a proper string, or
— when the bracket read hits an inherited Object.prototype member — that
truthy built-in itself. -/
inductive TextColorValue where
  | str (s : String)
  | builtin (name : String)
deriving DecidableEq, Repr

/-- `getTextColor` (ThemedText/index.tsx lines 63-72):
`colorMap[color] || color`, where the bracket read sees the four own
entries first and then the truthy members inherited from Object.prototype,
and `||` returns the left value unless it is falsy (`undefined` or the
empty string). -/
def getTextColor (color : String) (theme : Theme) : TextColorValue :=
  match jsIndex (textColorMap theme) color with
  | JsProperty.own s =>
      if s = "" then TextColorValue.str color else TextColorValue.str s
  | JsProperty.inherited name => TextColorValue.builtin name
  | JsProperty.undef => TextColorValue.str color

/-- `ButtonVariant` from the ThemedButton module. -/
inductive ButtonVariant where
  | filled
  | outlined
  | text
  | elevated
deriving DecidableEq, Repr, Fintype

/-- `ButtonColor` from the ThemedButton module. -/
inductive ButtonColor where
  | primary
  | secondary
  | success
  | error
  | warning
  | golden
deriving DecidableEq, Repr, Fintype

/-- `ButtonSize` from the ThemedButton module. -/
inductive ButtonSize where
  | small
  | medium
  | large
deriving DecidableEq, Repr, Fintype

/-- `isDisabled = disabled || loading` in ThemedButton. -/
def buttonIsDisabled (disabled loading : Bool) : Bool :=
  disabled || loading

/-- The `handlePress` closure of ThemedButton applied to one press event:
`if (!isDisabled && onPress) { onPress(event); }`. The result is `some r`
when the caller-supplied handler runs (returning `r`) and `none` when the
press is swallowed. The variant, color and size props parametrize the
component instance but, as in the source, do not enter the gate. -/
def themedButtonPress {ε ρ : Type} (_variant : ButtonVariant)
    (_color : ButtonColor) (_size : ButtonSize) (disabled loading : Bool)
    (onPress : Option (ε → ρ)) (event : ε) : Option ρ :=
  if !(buttonIsDisabled disabled loading) then
    Option.map (fun handler => handler event) onPress
  else
    none

/-- A theme agreeing with `lightTheme` on the two cache-key samples
(`colors.primary.main`, `colors.background.default`) but differing in the
`colors.text` tokens (it carries the dark text colors). -/
def collidingTheme : Theme :=
  ⟨{ lightColors with text := darkColors.text }⟩

/-- A style creator sampling a token that the cache key does not sample. -/
def sampleTextStyle (theme : Theme) : String :=
  theme.colors.text.primary

/-- After a call of the accessor, the theme's cache key is bound in the
resulting cache to exactly the styles the call returned. -/
theorem lookup_createStylesApply {σ : Type} (styleCreator : Theme → σ)
    (cache : StyleCache σ) (t : Theme) :
    List.lookup (cacheKey t) (createStylesApply styleCreator cache t).2
      = some (createStylesApply styleCreator cache t).1 := by
  cases h : List.lookup (cacheKey t) cache with
  | none => simp [createStylesApply, h, List.lookup, StyleSheet.create]
  | some s => simp [createStylesApply, h]

/-- C2: for every selection s ∈ {light, dark, auto} and environment
preference e ∈ {light, dark, unknown}, the provider resolves the active
scheme to s itself when s is explicit — independently of e and of any later
value of e — and to e when s is auto, defaulting to light when e is
unknown. -/
theorem activeColorScheme_resolution :
    (∀ (c : ColorScheme) (e e' : Option ColorScheme),
        activeColorScheme (SchemeSelection.explicit c) e = c
      ∧ activeColorScheme (SchemeSelection.explicit c) e
          = activeColorScheme (SchemeSelection.explicit c) e')
  ∧ (∀ (c : ColorScheme), activeColorScheme SchemeSelection.auto (some c) = c)
  ∧ activeColorScheme SchemeSelection.auto none = ColorScheme.light := by
  decide

/-- C3: toggling from the auto selection sets the explicit opposite of the
environment preference (a dark preference gives light, otherwise dark);
toggling from an explicit selection flips it between light and dark. -/
theorem toggleColorScheme_semantics :
    (∀ (e : Option ColorScheme),
        toggleColorScheme SchemeSelection.auto e
          = SchemeSelection.explicit
              (if e = some ColorScheme.dark then ColorScheme.light
               else ColorScheme.dark))
  ∧ (∀ (e : Option ColorScheme),
        toggleColorScheme (SchemeSelection.explicit ColorScheme.light) e
          = SchemeSelection.explicit ColorScheme.dark
      ∧ toggleColorScheme (SchemeSelection.explicit ColorScheme.dark) e
          = SchemeSelection.explicit ColorScheme.light) := by
  decide

/-- C4: from every explicit selection and fixed environment preference,
applying toggleColorScheme twice resolves to the same scheme as before the
two toggles. -/
theorem toggleColorScheme_involution :
    ∀ (c : ColorScheme) (e : Option ColorScheme),
      activeColorScheme
          (toggleColorScheme (toggleColorScheme (SchemeSelection.explicit c) e) e) e
        = activeColorScheme (SchemeSelection.explicit c) e := by
  decide

/-- C5: useTheme outside of a provider scope (where the context holds its
`undefined` default) fails with the configuration error and never returns a
context value. -/
theorem useTheme_outside_provider_fails :
    useTheme none = Except.error "useTheme must be used within a ThemeProvider"
  ∧ ∀ (ctx : ThemeContextType), useTheme none ≠ Except.ok ctx :=
  ⟨rfl, fun _ h => Except.noConfusion h⟩

/-- C6: for every variant, color and size and every press event, the
caller-supplied onPress handler of ThemedButton is never invoked while the
disabled flag or the loading flag is set. -/
theorem themedButtonPress_gated :
    (∀ (ε ρ : Type) (v : ButtonVariant) (c : ButtonColor) (s : ButtonSize)
        (loading : Bool) (onPress : Option (ε → ρ)) (event : ε),
        themedButtonPress v c s true loading onPress event = none)
  ∧ (∀ (ε ρ : Type) (v : ButtonVariant) (c : ButtonColor) (s : ButtonSize)
        (disabled : Bool) (onPress : Option (ε → ρ)) (event : ε),
        themedButtonPress v c s disabled true onPress event = none) := by
  constructor
  · intro ε ρ v c s loading onPress event
    rfl
  · intro ε ρ v c s disabled onPress event
    cases disabled <;> rfl

/-- C7: calling the accessor returned by createStyles a second time with the
same theme returns exactly the styles of the first call and leaves the cache
untouched — the style map is computed at most once per theme. -/
theorem createStyles_memoized {σ : Type} (styleCreator : Theme → σ)
    (cache : StyleCache σ) (t : Theme) :
    createStylesApply styleCreator (createStylesApply styleCreator cache t).2 t
      = ((createStylesApply styleCreator cache t).1,
         (createStylesApply styleCreator cache t).2) := by
  cases h : List.lookup (cacheKey t) cache with
  | none => simp [createStylesApply, h, List.lookup, StyleSheet.create]
  | some s => simp [createStylesApply, h]

/-- C1 (failing input): the two themes `lightTheme` and `collidingTheme`
agree on colors.primary.main and colors.background.default but differ in
colors.text.primary; after the accessor has been applied to `lightTheme`,
applying it to `collidingTheme` hits the colliding cache entry and returns
the styles computed from `lightTheme`, not the styles computed from
`collidingTheme`. -/
theorem createStyles_cache_collision :
    lightTheme.colors.primary.main = collidingTheme.colors.primary.main
  ∧ lightTheme.colors.background.default = collidingTheme.colors.background.default
  ∧ lightTheme ≠ collidingTheme
  ∧ (createStylesApply sampleTextStyle
        (createStylesApply sampleTextStyle ([] : StyleCache String) lightTheme).2
        collidingTheme).1
      = sampleTextStyle lightTheme
  ∧ (createStylesApply sampleTextStyle
        (createStylesApply sampleTextStyle ([] : StyleCache String) lightTheme).2
        collidingTheme).1
      ≠ sampleTextStyle collidingTheme := by
  refine ⟨rfl, rfl, by decide, rfl, by decide⟩

/-- C8 counterexample: the variant name "toString" is absent from the
(empty) variants map, yet useVariant raises no configuration error — the
bracket read finds the truthy inherited Object.prototype.toString, which
passes the `!variantCreator` guard and is invoked instead; likewise the
token-lookup path at "toString" does not fall back but yields the inherited
built-in. -/
theorem useVariant_toString_no_config_error :
    useVariant ([] : List (String × (Theme → String))) ("toString") lightTheme
      = UseVariantOutcome.inheritedInvoked "toString"
  ∧ useVariant ([] : List (String × (Theme → String))) ("toString") lightTheme
      ≠ UseVariantOutcome.notFoundError
          ("Variant \"" ++ "toString" ++ "\" not found in variants object")
  ∧ getTextColor ("toString") lightTheme = TextColorValue.builtin "toString" :=
  ⟨by decide, by decide, by decide⟩

/-- C8 (amended): useVariant raises the configuration error exactly for
variant names that are neither own keys of the variants map nor members
inherited from Object.prototype — for inherited names such as "toString"
the truthy built-in passes the guard and no configuration error is raised —
while the simple token-lookup path of ThemedText (getTextColor) never
raises and, for a color name that is neither an own key nor inherited,
silently falls back to the given string. -/
theorem useVariant_error_only_for_truly_absent :
    (∀ (σ : Type) (variants : List (String × (Theme → σ)))
        (variant : String) (t : Theme),
        List.lookup variant variants = none →
        variant ∉ objectPrototypeKeys →
        useVariant variants variant t
          = UseVariantOutcome.notFoundError
              ("Variant \"" ++ variant ++ "\" not found in variants object"))
  ∧ (∀ (σ : Type) (variants : List (String × (Theme → σ)))
        (variant : String) (t : Theme) (msg : String),
        useVariant variants variant t = UseVariantOutcome.notFoundError msg →
        List.lookup variant variants = none ∧ variant ∉ objectPrototypeKeys)
  ∧ (∀ (color : String) (t : Theme),
        List.lookup color (textColorMap t) = none →
        color ∉ objectPrototypeKeys →
        getTextColor color t = TextColorValue.str color) := by
  refine ⟨?_, ?_, ?_⟩
  · intro σ variants variant t h hp
    simp [useVariant, jsIndex, h, hp]
  · intro σ variants variant t msg h
    cases hl : List.lookup variant variants with
    | some value => simp [useVariant, jsIndex, hl] at h
    | none =>
        by_cases hp : variant ∈ objectPrototypeKeys
        · simp [useVariant, jsIndex, hl, hp] at h
        · exact ⟨rfl, hp⟩
  · intro color t h hp
    simp [getTextColor, jsIndex, h, hp]

/-- Witness for C8: the name "missing" is neither an own key of the empty
variants object nor an inherited property name, so useVariant raises the
configuration error, and by the converse direction such names are the only
ones that do; getTextColor passes the unmapped string "#ff0000" through
unchanged. -/
theorem useVariant_error_only_for_truly_absent_witness :
    useVariant ([] : List (String × (Theme → String))) ("missing") lightTheme
      = UseVariantOutcome.notFoundError
          ("Variant \"" ++ "missing" ++ "\" not found in variants object")
  ∧ (List.lookup ("missing") ([] : List (String × (Theme → String))) = none
      ∧ ("missing") ∉ objectPrototypeKeys)
  ∧ getTextColor ("#ff0000") lightTheme = TextColorValue.str "#ff0000" :=
  ⟨useVariant_error_only_for_truly_absent.1 String [] ("missing") lightTheme rfl
      (by decide),
   useVariant_error_only_for_truly_absent.2.1 String [] ("missing") lightTheme
      ("Variant \"" ++ "missing" ++ "\" not found in variants object")
      (useVariant_error_only_for_truly_absent.1 String [] ("missing") lightTheme
        rfl (by decide)),
   useVariant_error_only_for_truly_absent.2.2 ("#ff0000") lightTheme (by decide)
      (by decide)⟩

/-- C9 counterexample: the color string "toString" is not one of the four
named keys, yet the source does not use it verbatim as the text color — the
bracket read finds the truthy inherited Object.prototype.toString, which
`||` returns in place of the string. -/
theorem getTextColor_toString_not_passthrough :
    getTextColor ("toString") lightTheme ≠ TextColorValue.str "toString"
  ∧ getTextColor ("toString") lightTheme = TextColorValue.builtin "toString" :=
  ⟨by decide, by decide⟩

/-- C9 (amended): every color string that is neither one of the four named
keys {primary, secondary, disabled, inverse} nor the name of a member
inherited from Object.prototype is used verbatim as the resolved text
color, for every theme. -/
theorem getTextColor_passthrough (color : String) (t : Theme)
    (h : color ∉ (["primary", "secondary", "disabled", "inverse"] : List String))
    (hp : color ∉ objectPrototypeKeys) :
    getTextColor color t = TextColorValue.str color := by
  simp only [List.mem_cons, List.not_mem_nil, or_false, not_or] at h
  obtain ⟨h1, h2, h3, h4⟩ := h
  have e1 : (color == "primary") = false := beq_eq_false_iff_ne.mpr h1
  have e2 : (color == "secondary") = false := beq_eq_false_iff_ne.mpr h2
  have e3 : (color == "disabled") = false := beq_eq_false_iff_ne.mpr h3
  have e4 : (color == "inverse") = false := beq_eq_false_iff_ne.mpr h4
  simp [getTextColor, jsIndex, textColorMap, List.lookup, e1, e2, e3, e4, hp]

/-- Witness for C9: the custom color "#123456" is neither a named key nor an
inherited property name and is passed through unchanged. -/
theorem getTextColor_passthrough_witness :
    getTextColor ("#123456") lightTheme = TextColorValue.str "#123456" :=
  getTextColor_passthrough ("#123456") lightTheme (by decide) (by decide)

/-- C10: the selection produced by toggleColorScheme is always explicit,
never auto, so the resolved scheme after a toggle does not depend on the
environment preference any more. -/
theorem toggleColorScheme_always_explicit :
    ∀ (user : SchemeSelection) (sys : Option ColorScheme),
      (∃ c, toggleColorScheme user sys = SchemeSelection.explicit c)
    ∧ ∀ (e₁ e₂ : Option ColorScheme),
        activeColorScheme (toggleColorScheme user sys) e₁
          = activeColorScheme (toggleColorScheme user sys) e₂ := by
  decide
